import Mathlib

/-
Verification development for the sentinel incident-response workflow engine.

The Python sources under sentinel/ are shallowly embedded: pure functions
become Lean functions, stateful methods become functions that take and
return the relevant state, machine data (JSON-style dicts) becomes an
explicit inductive value type, and code that may raise becomes Except.
Wall-clock readings (datetime.now) are external inputs and are threaded in
as explicit parameters where the code uses them; timestamp fields that are
only stored and never branched on are omitted from the embedded records.

The module sentinel/types.py is imported throughout the repository but is
not part of the sources available here; the data containers it defines
(RiskLevel, PermissionLevel, ToolResult, Budget, Task, Action, Plan) are
modelled from the specification, as marked on each definition. All
decision logic (registry, graph, policies, orchestrator loop, verifier,
report) is translated from the Python sources directly.
-/

namespace Sentinel

/-- JSON-style scalar values, the shape of tool arguments, tool results and
result metadata in the Python code (dict values). Nested containers never
occur in the code paths the claims touch, so scalars suffice. -/
inductive JsonVal : Type
  | str (s : String)
  | num (n : Int)
  | bool (b : Bool)
  | null
deriving DecidableEq, Repr

/-- A Python dict with string keys, embedded as an insertion-ordered
association list, matching Python dict iteration order. -/
abbrev Jdict := List (String × JsonVal)

/-- Lookup in an insertion-ordered association list (Python d.get(k) / k in d). -/
def assocLookup {α : Type} (k : String) : List (String × α) → Option α
  | [] => none
  | (k', v) :: t => if k' = k then some v else assocLookup k t

/-- Overwrite-or-append update of an association list (Python d[k] = v). -/
def assocSet {α : Type} (k : String) (v : α) : List (String × α) → List (String × α)
  | [] => [(k, v)]
  | (k', v') :: t => if k' = k then (k, v) :: t else (k', v') :: assocSet k v t

theorem assocLookup_mem {α : Type} {k : String} {v : α} :
    ∀ {l : List (String × α)}, assocLookup k l = some v → (k, v) ∈ l := by
  intro l
  induction l with
  | nil => intro h; simp [assocLookup] at h
  | cons p t ih =>
    obtain ⟨k', v'⟩ := p
    intro h
    simp only [assocLookup] at h
    by_cases hk : k' = k
    · rw [if_pos hk] at h
      injection h with h'
      subst hk
      subst h'
      exact List.mem_cons_self _ _
    · rw [if_neg hk] at h
      exact List.mem_cons_of_mem _ (ih h)

theorem mem_assocSet {α : Type} {k : String} {v : α} {p : String × α} :
    ∀ {l : List (String × α)}, p ∈ assocSet k v l → p = (k, v) ∨ p ∈ l := by
  intro l
  induction l with
  | nil =>
    intro h
    simp only [assocSet, List.mem_singleton] at h
    exact Or.inl h
  | cons q t ih =>
    obtain ⟨k', v'⟩ := q
    intro h
    simp only [assocSet] at h
    by_cases hk : k' = k
    · rw [if_pos hk] at h
      rcases List.mem_cons.mp h with h1 | h1
      · exact Or.inl h1
      · exact Or.inr (List.mem_cons_of_mem _ h1)
    · rw [if_neg hk] at h
      rcases List.mem_cons.mp h with h1 | h1
      · exact Or.inr (h1 ▸ List.mem_cons_self _ _)
      · rcases ih h1 with h2 | h2
        · exact Or.inl h2
        · exact Or.inr (List.mem_cons_of_mem _ h2)

/-- Python repr of a scalar value, used when the code formats values into
message strings (f-strings). -/
def JsonVal.pyRepr : JsonVal → String
  | .str s => "\x27" ++ s ++ "\x27"
  | .num n => toString n
  | .bool b => if b then "True" else "False"
  | .null => "None"

/-- Python repr of a list of strings, e.g. the missing-fields list. -/
def pyListRepr (l : List String) : String :=
  "[" ++ String.intercalate ", " (l.map (fun s => "\x27" ++ s ++ "\x27")) ++ "]"

/-- Python repr of a dict of scalars (used in the would-execute message). -/
def pyDictRepr (d : Jdict) : String :=
  "\x7b" ++
    String.intercalate ", "
      (d.map (fun p => "\x27" ++ p.1 ++ "\x27: " ++ p.2.pyRepr)) ++
  "\x7d"

/-- Python truthiness of a scalar value (empty string, zero, False and None
are falsy), used where the code branches on a dict value directly. -/
def JsonVal.truthy : JsonVal → Bool
  | .str s => s ≠ ""
  | .num n => n ≠ 0
  | .bool b => b
  | .null => false

/-- Modelled from the spec: risk classification of a tool, from the data
model of sentinel/types.py which is absent from the available sources
(spec section 3, ToolSpec: risk_level in read_only, safe_write, risky_write). -/
inductive RiskLevel : Type
  | read_only
  | safe_write
  | risky_write
deriving DecidableEq, Repr

/-- String value of a risk level, as used by the registry when it writes
risk_level.value into result metadata. -/
def RiskLevel.value : RiskLevel → String
  | .read_only => "read_only"
  | .safe_write => "safe_write"
  | .risky_write => "risky_write"

/-- Modelled from the spec: caller/tool permission level, from the data
model of sentinel/types.py which is absent from the available sources
(spec section 3, ToolSpec: permission_required in guest, operator, admin). -/
inductive PermissionLevel : Type
  | guest
  | operator
  | admin
deriving DecidableEq, Repr

/-- String value of a permission level, used when formatting the
permission-denied message. -/
def PermissionLevel.value : PermissionLevel → String
  | .guest => "guest"
  | .operator => "operator"
  | .admin => "admin"

/-- Modelled from the spec: the result value returned by ToolRegistry.call,
from sentinel/types.py which is absent from the available sources. The
registry code constructs it with success/data/error and merges a metadata
dict into it (registry.py lines 174, 220-228, 246-253). -/
structure ToolResult : Type where
  success : Bool
  data : Option Jdict
  error : Option String
  metadata : Jdict
deriving DecidableEq, Repr

/-- Modelled from the spec: the per-run resource ledger of
sentinel/types.py, absent from the available sources. Spec section 3:
ceilings max_tokens / max_time_seconds / max_tool_calls with live counters,
and spec section 8: is_exceeded() is true iff any counter has reached its
ceiling. Wall-clock seconds are modelled as naturals. -/
structure Budget : Type where
  max_tokens : Nat
  max_time_seconds : Nat
  max_tool_calls : Nat
  tokens_used : Nat
  time_used : Nat
  tool_calls_used : Nat
deriving DecidableEq, Repr

/-- Modelled from the spec (section 8): is_exceeded() is true iff
tokens_used >= max_tokens or time_used >= max_time_seconds or
tool_calls_used >= max_tool_calls. -/
def Budget.is_exceeded (b : Budget) : Bool :=
  decide (b.max_tokens ≤ b.tokens_used) ||
  decide (b.max_time_seconds ≤ b.time_used) ||
  decide (b.max_tool_calls ≤ b.tool_calls_used)

/-- Modelled from the spec: recording wall-clock usage adds the elapsed
duration to the time counter (orchestrator.py line 161 calls
task.budget.record_time_usage(node_duration); counters are monotonically
non-decreasing per spec section 3). -/
def Budget.record_time_usage (b : Budget) (duration : Nat) : Budget :=
  { b with time_used := b.time_used + duration }

/-- Modelled from the spec: the Task threaded through every stage
(sentinel/types.py, absent from the available sources). Only the fields
the orchestrator loop reads are modelled; the free-form symptom/context
maps, goal and provenance fields are data the loop never branches on. -/
structure Task : Type where
  task_id : String
  budget : Budget
  status : String
deriving DecidableEq, Repr

/-- Modelled from the spec: one action of a Plan (spec section 3: tool_name,
args, risk_level, requires_approval, dry_run flag, executed flag,
result/error). Only the fields the approval policy reads are modelled. -/
structure Action : Type where
  tool_name : String
  args : Jdict
  risk_level : RiskLevel
  requires_approval : Bool
deriving DecidableEq, Repr

/-- Modelled from the spec: a remediation plan (spec section 3: hypotheses,
ordered action list, approval_required flag; rollback/confidence/duration
fields are data the policies never read). -/
structure Plan : Type where
  hypotheses : List String
  actions : List Action
  approval_required : Bool
deriving DecidableEq, Repr

/-! ## Tool registry (sentinel/tools/registry.py) -/

/-- Tool specification (registry.py, class ToolSpec). The input schema is a
JSON-schema dict of which the registry only ever reads the "required"
field list (registry.py line 196), so just that list is embedded. The
handler may raise, embedded as Except. -/
structure ToolSpec : Type where
  name : String
  description : String
  input_schema_required : List String
  risk_level : RiskLevel
  permission_required : PermissionLevel
  handler : Jdict → Except String Jdict

/-- One audit entry per registry call (registry.py, class AuditRecord).
The timestamp field is an external clock reading and is omitted. -/
structure AuditRecord : Type where
  tool_name : String
  caller_permission : PermissionLevel
  args : Jdict
  risk_level : RiskLevel
  dry_run : Bool
  success : Bool
  error : Option String
  duration_ms : Nat

/-- The registry state: registered tools (a name-keyed dict) and the
append-only audit log (registry.py __init__). -/
structure ToolRegistry : Type where
  tools : List (String × ToolSpec)
  audit_log : List AuditRecord

/-- registry.py _permission_level_value: guest 1, operator 2, admin 3. -/
def ToolRegistry.permission_level_value : PermissionLevel → Nat
  | .guest => 1
  | .operator => 2
  | .admin => 3

/-- registry.py _check_permission: caller rank at least the required rank. -/
def ToolRegistry.check_permission (caller required : PermissionLevel) : Bool :=
  decide (ToolRegistry.permission_level_value required ≤
          ToolRegistry.permission_level_value caller)

/-- registry.py _record_audit: append one record to the audit log. -/
def ToolRegistry.record_audit (reg : ToolRegistry) (rec : AuditRecord) : ToolRegistry :=
  { reg with audit_log := reg.audit_log ++ [rec] }

/-- registry.py get_tool: dict lookup. -/
def ToolRegistry.get_tool (reg : ToolRegistry) (name : String) : Option ToolSpec :=
  assocLookup name reg.tools

/-- The permission-denied message of registry.py lines 178-181. The Python
f-string renders the enum members; their value strings are used here. -/
def permissionDeniedMsg (tool_name : String) (required caller : PermissionLevel) : String :=
  "Permission denied: \x27" ++ tool_name ++ "\x27 requires " ++ required.value ++
  ", caller has " ++ caller.value

/-- The missing-required-fields list of registry.py line 197. -/
def ToolSpec.missing_fields (tool : ToolSpec) (args : Jdict) : List String :=
  tool.input_schema_required.filter (fun f => (assocLookup f args).isNone)

/-- The outcome of one ToolRegistry.call: the returned ToolResult, the
registry with its extended audit log, and whether the branch taken actually
invoked the tool handler (the call-counter instrumentation the spec asks
for when checking dry-run and permission-denial behaviour). -/
structure CallOutcome : Type where
  result : ToolResult
  registry : ToolRegistry
  handlerInvoked : Bool

/-- registry.py call (lines 135-255): unknown-tool, permission and
required-field checks each return a failure result after auditing; a
dry-run call on a non-read-only tool returns a synthetic would-execute
success without invoking the handler; otherwise the handler runs with any
exception converted to a failure result; exactly one audit record is
appended on every branch, and on the post-validation branches the four
metadata keys are merged into the returned result. elapsed_ms is the
external wall-clock duration measurement used by the code. -/
def ToolRegistry.call (reg : ToolRegistry) (tool_name : String) (args : Jdict)
    (caller_permission : PermissionLevel) (dry_run : Bool) (elapsed_ms : Nat) :
    CallOutcome :=
  match reg.get_tool tool_name with
  | none =>
    let error_msg := "Tool \x27" ++ tool_name ++ "\x27 not found"
    { result := { success := false, data := none, error := some error_msg, metadata := [] },
      registry := reg.record_audit
        { tool_name := tool_name, caller_permission := caller_permission, args := args,
          risk_level := RiskLevel.read_only, dry_run := dry_run, success := false,
          error := some error_msg, duration_ms := 0 },
      handlerInvoked := false }
  | some tool =>
    if !(ToolRegistry.check_permission caller_permission tool.permission_required) then
      let error_msg := permissionDeniedMsg tool_name tool.permission_required caller_permission
      { result := { success := false, data := none, error := some error_msg, metadata := [] },
        registry := reg.record_audit
          { tool_name := tool_name, caller_permission := caller_permission, args := args,
            risk_level := tool.risk_level, dry_run := dry_run, success := false,
            error := some error_msg, duration_ms := 0 },
        handlerInvoked := false }
    else
      let missing := tool.missing_fields args
      if !missing.isEmpty then
        let error_msg := "Missing required fields: " ++ pyListRepr missing
        { result := { success := false, data := none, error := some error_msg, metadata := [] },
          registry := reg.record_audit
            { tool_name := tool_name, caller_permission := caller_permission, args := args,
              risk_level := tool.risk_level, dry_run := dry_run, success := false,
              error := some error_msg, duration_ms := 0 },
          handlerInvoked := false }
      else
        let exec : ToolResult × Bool :=
          if dry_run && !(tool.risk_level == RiskLevel.read_only) then
            ({ success := true,
               data := some [("dry_run", JsonVal.bool true),
                 ("message", JsonVal.str
                   ("Would execute " ++ tool_name ++ " with args: " ++ pyDictRepr args))],
               error := none, metadata := [] }, false)
          else
            match tool.handler args with
            | Except.ok result_data =>
              ({ success := true, data := some result_data, error := none, metadata := [] },
               true)
            | Except.error e =>
              ({ success := false, data := none,
                 error := some ("Tool execution failed: " ++ e), metadata := [] },
               true)
        let result := exec.1
        let reg2 := reg.record_audit
          { tool_name := tool_name, caller_permission := caller_permission, args := args,
            risk_level := tool.risk_level, dry_run := dry_run, success := result.success,
            error := result.error, duration_ms := elapsed_ms }
        { result := { result with metadata :=
            (([("tool_name", JsonVal.str tool_name),
               ("risk_level", JsonVal.str tool.risk_level.value),
               ("duration_ms", JsonVal.num (Int.ofNat elapsed_ms)),
               ("dry_run", JsonVal.bool dry_run)] : Jdict).foldl
              (fun acc p => assocSet p.1 p.2 acc) result.metadata) },
          registry := reg2,
          handlerInvoked := exec.2 }

/-! ## Execution graph (sentinel/orchestration/graph.py)

The graph is polymorphic in the node-result type V and in the shared-state
type S (Python stores arbitrary values in node results and in the
context state dict). A node handler is a pure function of the execution
context that either returns a result together with the updated context or
raises (spec section 3: handler is a pure function of Execution Context to
result, may raise), embedded as Except. -/

/-- graph.py NodeStatus. -/
inductive NodeStatus : Type
  | pending
  | running
  | success
  | failed
  | skipped
deriving DecidableEq, Repr

/-- graph.py ExecutionContext: task id, shared state, the currently
executing node, per-node results and the ordered execution path. The
start_time field is an external clock reading and is omitted. -/
structure ExecutionContext (V S : Type) : Type where
  task_id : String
  state : S
  current_node : Option String
  node_results : List (String × V)
  execution_path : List String

/-- graph.py ExecutionContext.get_node_result. -/
def ExecutionContext.get_node_result {V S : Type} (ctx : ExecutionContext V S)
    (node_name : String) : Option V :=
  assocLookup node_name ctx.node_results

/-- graph.py ExecutionContext.set_node_result. -/
def ExecutionContext.set_node_result {V S : Type} (ctx : ExecutionContext V S)
    (node_name : String) (result : V) : ExecutionContext V S :=
  { ctx with node_results := assocSet node_name result ctx.node_results }

/-- graph.py ExecutionContext.add_to_path. -/
def ExecutionContext.add_to_path {V S : Type} (ctx : ExecutionContext V S)
    (node_name : String) : ExecutionContext V S :=
  { ctx with execution_path := ctx.execution_path ++ [node_name] }

/-- The type of a node handler: context in, result and updated context out,
or a raised error message. -/
abbrev NodeHandler (V S : Type) : Type :=
  ExecutionContext V S → Except String (V × ExecutionContext V S)

/-- graph.py Node: name, optional handler, execution status, last error and
last result. Timestamp fields are external clock readings and are omitted. -/
structure Node (V S : Type) : Type where
  name : String
  handler : Option (NodeHandler V S)
  description : String
  status : NodeStatus
  error : Option String
  result : Option V

/-- graph.py StateTransition: an edge with an optional guard predicate. -/
structure StateTransition (V S : Type) : Type where
  from_node : String
  to_node : String
  condition : Option (ExecutionContext V S → Bool)
  description : String

/-- graph.py Graph: the name-keyed node dict, the transition list, and the
redundant from-node adjacency dict the code also maintains. -/
structure Graph (V S : Type) : Type where
  nodes : List (String × Node V S)
  transitions : List (StateTransition V S)
  edges : List (String × List String)

/-- graph.py add_node: reject duplicate names, else insert a pending node. -/
def Graph.add_node {V S : Type} (g : Graph V S) (name : String)
    (handler : NodeHandler V S) (description : String) :
    Except String (Graph V S) :=
  if (assocLookup name g.nodes).isSome then
    Except.error ("Node \x27" ++ name ++ "\x27 already exists")
  else
    Except.ok { g with nodes := g.nodes ++
      [(name, { name := name, handler := some handler, description := description,
                status := NodeStatus.pending, error := none, result := none })] }

/-- graph.py add_edge: both endpoints must exist; append to the adjacency
dict and to the transition list. -/
def Graph.add_edge {V S : Type} (g : Graph V S) (from_node to_node : String)
    (condition : Option (ExecutionContext V S → Bool)) :
    Except String (Graph V S) :=
  if (assocLookup from_node g.nodes).isNone then
    Except.error ("Node \x27" ++ from_node ++ "\x27 does not exist")
  else if (assocLookup to_node g.nodes).isNone then
    Except.error ("Node \x27" ++ to_node ++ "\x27 does not exist")
  else
    let olds := (assocLookup from_node g.edges).getD []
    Except.ok { g with
      edges := assocSet from_node (olds ++ [to_node]) g.edges,
      transitions := g.transitions ++
        [{ from_node := from_node, to_node := to_node, condition := condition,
           description := "" }] }

/-- graph.py get_next_nodes: in transition-registration order, every edge
whose source matches and whose guard is absent or evaluates true. -/
def Graph.get_next_nodes {V S : Type} (g : Graph V S) (current_node : String)
    (context : ExecutionContext V S) : List String :=
  (g.transitions.filter (fun t =>
    t.from_node == current_node &&
      (match t.condition with
       | none => true
       | some c => c context))).map (fun t => t.to_node)

/-- The value of one graph.py execute_node call: the graph with the updated
node record, the (possibly updated) context, and the Python return triple
(success, result, error). -/
structure ExecOutcome (V S : Type) : Type where
  graph : Graph V S
  ctx : ExecutionContext V S
  ok : Bool
  result : Option V
  error : Option String

/-- graph.py execute_node (lines 211-257): an unknown name returns a
not-found failure without touching anything; otherwise the node is marked
running and current_node is set, then the handler runs with any raised
error caught and recorded on the node (status failed) and returned in the
triple; on success the node is marked success and the result is written
into the context node-result map and the name appended to the execution
path. The function is total: no branch propagates an exception. -/
def Graph.execute_node {V S : Type} (g : Graph V S) (node_name : String)
    (context : ExecutionContext V S) : ExecOutcome V S :=
  match assocLookup node_name g.nodes with
  | none =>
    { graph := g, ctx := context, ok := false, result := none,
      error := some ("Node \x27" ++ node_name ++ "\x27 not found") }
  | some node =>
    let node_running := { node with status := NodeStatus.running }
    let ctx1 := { context with current_node := some node_name }
    match node.handler with
    | none =>
      let msg := "Node \x27" ++ node_name ++ "\x27 has no handler"
      let node_failed := { node_running with status := NodeStatus.failed, error := some msg }
      { graph := { g with nodes := assocSet node_name node_failed g.nodes },
        ctx := ctx1, ok := false, result := none, error := some msg }
    | some h =>
      match h ctx1 with
      | Except.ok (result, ctx2) =>
        let node_done := { node_running with
          status := NodeStatus.success, result := some result }
        let ctx3 := (ctx2.set_node_result node_name result).add_to_path node_name
        { graph := { g with nodes := assocSet node_name node_done g.nodes },
          ctx := ctx3, ok := true, result := some result, error := none }
      | Except.error e =>
        let node_failed := { node_running with status := NodeStatus.failed, error := some e }
        { graph := { g with nodes := assocSet node_name node_failed g.nodes },
          ctx := ctx1, ok := false, result := none, error := some e }

/-- Every handler registered in the graph leaves the execution path of the
context it returns unchanged. The reference pipeline handlers write only
to the state bag; the path is appended to exclusively by execute_node. -/
def HandlersPreservePath {V S : Type} (g : Graph V S) : Prop :=
  ∀ p ∈ g.nodes, ∀ h, p.2.handler = some h →
    ∀ ctx r ctx', h ctx = Except.ok (r, ctx') →
      ctx'.execution_path = ctx.execution_path

/-- The value of a sequence of execute_node calls: the final graph and
context, plus the per-call (name, success) trace. -/
structure SeqOutcome (V S : Type) : Type where
  graph : Graph V S
  ctx : ExecutionContext V S
  trace : List (String × Bool)

/-- A sequence of execute_node calls against the same graph and context,
as the orchestrator loop performs within one run. -/
def Graph.executeSeq {V S : Type} (g : Graph V S) (ctx : ExecutionContext V S) :
    List String → SeqOutcome V S
  | [] => { graph := g, ctx := ctx, trace := [] }
  | n :: rest =>
    let out := g.execute_node n ctx
    let tail := out.graph.executeSeq out.ctx rest
    { graph := tail.graph, ctx := tail.ctx, trace := (n, out.ok) :: tail.trace }

/-- The names of the successful calls of a trace, in order. -/
def successNames (trace : List (String × Bool)) : List String :=
  (trace.filter (fun p => p.2)).map (fun p => p.1)

/-! ## Orchestrator run loop (sentinel/orchestration/orchestrator.py)

The loop is embedded generically in the graph: the eight stage handlers
call external LLM agents, so the claims about the loop itself quantify
over the graph. The Python context state dict carries the Task (aliased
with the run argument) and the caller permission; the loop itself reads
only the Task, so the shared-state type is instantiated to Task and the
aliasing is rendered by threading the Task through the context. Per-node
wall-clock durations are external measurements, supplied as a list, and a
fuel counter makes the possibly-cyclic walk total; fuel is consumed only
after the budget check so that running out of fuel never masks a
budget-exceeded abort. -/

/-- The budget-exceeded message of orchestrator.py lines 149-153. The
Python :.1f float rendering of whole seconds is the digits followed by .0. -/
def budgetExceededMsg (b : Budget) : String :=
  "Budget exceeded: " ++ toString b.tokens_used ++ "/" ++ toString b.max_tokens ++
  " tokens, " ++ toString b.time_used ++ ".0/" ++ toString b.max_time_seconds ++
  "s time, " ++ toString b.tool_calls_used ++ "/" ++ toString b.max_tool_calls ++
  " tool calls"

/-- The stage-failure message of orchestrator.py line 164. -/
def stageFailedMsg (current : String) (error : Option String) : String :=
  "Node \x27" ++ current ++ "\x27 failed: " ++ (error.getD "None")

/-- The value of the orchestrator while-loop: the final context (or the
error that aborted the run) and the names of the nodes the loop actually
handed to execute_node, in order. -/
structure LoopOutcome (V : Type) : Type where
  result : Except String (ExecutionContext V Task)
  attempted : List String

/-- orchestrator.py run, lines 146-168 (the while-loop): while a current
node exists, abort with the budget-exceeded error if the budget of the
task in the context state is exceeded, else execute the node, record its
wall-clock duration on the budget, abort on node failure, and move to the
first eligible next node (or stop when there is none). -/
def Orchestrator.runLoop {V : Type} (g : Graph V Task) :
    Nat → Option String → ExecutionContext V Task → List Nat → LoopOutcome V
  | _, none, ctx, _ => { result := Except.ok ctx, attempted := [] }
  | fuel, some current_node, ctx, durations =>
    if (ctx.state.budget).is_exceeded then
      { result := Except.error (budgetExceededMsg ctx.state.budget), attempted := [] }
    else
      match fuel with
      | 0 => { result := Except.error "loop fuel exhausted", attempted := [] }
      | fuel' + 1 =>
        let out := g.execute_node current_node ctx
        let node_duration := durations.headD 0
        let ctx2 := { out.ctx with state := { out.ctx.state with
          budget := out.ctx.state.budget.record_time_usage node_duration } }
        if out.ok then
          let next_nodes := out.graph.get_next_nodes current_node ctx2
          let rest := Orchestrator.runLoop out.graph fuel' next_nodes.head? ctx2
            durations.tail
          { result := rest.result, attempted := current_node :: rest.attempted }
        else
          { result := Except.error (stageFailedMsg current_node out.error),
            attempted := [current_node] }

/-- orchestrator.py run, lines 136-173: build the context seeded with the
task, drive the loop from the detect stage, then extract the report node
result, failing with the no-report error when it is absent. A failed run
yields an error, never a Report. -/
def Orchestrator.run {V : Type} (g : Graph V Task) (task : Task)
    (durations : List Nat) (fuel : Nat) : Except String V × List String :=
  let context : ExecutionContext V Task :=
    { task_id := task.task_id, state := task, current_node := none,
      node_results := [], execution_path := [] }
  let loop := Orchestrator.runLoop g fuel (some "detect") context durations
  match loop.result with
  | Except.error e => (Except.error e, loop.attempted)
  | Except.ok ctx =>
    match ctx.get_node_result "report" with
    | none => (Except.error "No report generated", loop.attempted)
    | some report => (Except.ok report, loop.attempted)

/-! ## Policies (sentinel/orchestration/policies.py) -/

/-- policies.py ApprovalPolicy configuration flags. -/
structure ApprovalPolicy : Type where
  auto_approve_read_only : Bool
  auto_approve_safe_write : Bool
  require_approval_for_risky : Bool
deriving DecidableEq, Repr

/-- policies.py requires_approval (lines 77-102): true when the plan is
flagged, or some action triggers the per-risk-level configuration. -/
def ApprovalPolicy.requires_approval (policy : ApprovalPolicy) (plan : Plan) : Bool :=
  if plan.approval_required then
    true
  else
    plan.actions.any (fun action =>
      match action.risk_level with
      | RiskLevel.risky_write => policy.require_approval_for_risky
      | RiskLevel.safe_write => !policy.auto_approve_safe_write
      | RiskLevel.read_only => !policy.auto_approve_read_only)

/-- policies.py approve_plan (lines 104-131): always approves; reason is
the auto-approval message when no approval is required, the risky-count
message when risky actions are present under require_approval_for_risky,
and a plain approval message otherwise. -/
def ApprovalPolicy.approve_plan (policy : ApprovalPolicy) (plan : Plan) :
    Bool × Option String :=
  if !(policy.requires_approval plan) then
    (true, some "Auto-approved by policy")
  else
    let risky_actions := plan.actions.filter
      (fun a => a.risk_level == RiskLevel.risky_write)
    if !risky_actions.isEmpty && policy.require_approval_for_risky then
      (true, some ("Auto-approved (M1 mode) - " ++ toString risky_actions.length ++
        " risky actions require review in M2"))
    else
      (true, some "Approved by policy")

/-! ## Verifier (sentinel/orchestration/verifier.py) -/

/-- verifier.py VerificationRule. Thresholds are rationals (Python floats
carry only values like 80.0 and 0.01 here, exactly representable). -/
structure VerificationRule : Type where
  metric : String
  threshold : Rat
  operator : String
  description : String

/-- verifier.py DEFAULT_RULES. -/
def DEFAULT_RULES : List (String × VerificationRule) :=
  [("cpu_percent",
    { metric := "cpu_percent", threshold := 80, operator := "lt",
      description := "CPU usage should be below 80%" }),
   ("memory_percent",
    { metric := "memory_percent", threshold := 85, operator := "lt",
      description := "Memory usage should be below 85%" }),
   ("request_latency_p99",
    { metric := "request_latency_p99", threshold := 200, operator := "lt",
      description := "P99 latency should be below 200ms" })]

/-- verifier.py _evaluate_threshold (lines 308-324); eq uses a 0.01
tolerance, an unknown operator yields false. -/
def Verifier.evaluate_threshold (value threshold : Rat) (operator : String) : Bool :=
  if operator = "lt" then decide (value < threshold)
  else if operator = "gt" then decide (value > threshold)
  else if operator = "eq" then decide (|value - threshold| < (0.01 : Rat))
  else if operator = "le" then decide (value ≤ threshold)
  else if operator = "ge" then decide (value ≥ threshold)
  else false

/-- The result dict of one metric check. -/
structure MetricCheck : Type where
  ctype : String
  passed : Bool
  message : String
  current_value : Option Rat
  threshold : Option Rat
deriving DecidableEq, Repr

/-- The result dict of the error-log check. -/
structure LogCheck : Type where
  ctype : String
  passed : Bool
  message : String
  error_count : Option Nat
deriving DecidableEq, Repr

/-- The TypeError message Python raises for the registry calls at
verifier.py lines 202 and 267, which pass only tool_name and args while
ToolRegistry.call (registry.py line 135) requires caller_permission. -/
def registryCallTypeError : String :=
  "ToolRegistry.call() missing 1 required positional argument: \x27caller_permission\x27"

/-- verifier.py _check_metric (lines 177-251). With no rule for the metric
the check passes vacuously. Otherwise the try-block begins with
self.tool_registry.call("query_metrics", ...) which omits the required
caller_permission parameter; under Python calling semantics this raises
TypeError before the metrics backend is consulted, and the surrounding
except turns it into a failed check. The average the backend would have
reported is taken as a parameter precisely to show the output does not
depend on it: the threshold comparison below the call is unreachable. -/
def Verifier.check_metric (_service metric_name : String) (_backend_avg : Rat) :
    MetricCheck :=
  match assocLookup metric_name DEFAULT_RULES with
  | none =>
    { ctype := "metric", passed := true,
      message := "No verification rule defined for " ++ metric_name,
      current_value := none, threshold := none }
  | some rule =>
    { ctype := "metric", passed := false,
      message := "Error checking " ++ metric_name ++ ": " ++ registryCallTypeError,
      current_value := none, threshold := some rule.threshold }

/-- verifier.py _check_error_logs (lines 253-306). The try-block begins
with self.tool_registry.call("query_logs", ...) which omits the required
caller_permission parameter, raising TypeError; the except turns it into a
failed check, so the error_count < 5 comparison below is unreachable. The
count the log backend would have reported is a parameter to show the
output does not depend on it. -/
def Verifier.check_error_logs (_service : String) (_backend_error_count : Nat) :
    LogCheck :=
  { ctype := "logs", passed := false,
    message := "Error checking logs: " ++ registryCallTypeError,
    error_count := none }

/-! ## Report stage status (sentinel/orchestration/orchestrator.py _node_report) -/

/-- Python value > 0 as the report stage applies it to the failure count
(ints and bools compare numerically; the values stored there are ints). -/
def jsonGtZero : JsonVal → Bool
  | JsonVal.num n => decide (0 < n)
  | JsonVal.bool b => b
  | _ => false

/-- orchestrator.py _node_report lines 484-490: the overall report status.
The two node results are optional (context.get_node_result(...) falls back
to an empty dict when the node never ran), and the dict reads use
the Python defaults verified=False and failure_count=0. -/
def reportStatus (verification_result executor_result : Option Jdict) : String :=
  let v := verification_result.getD []
  let e := executor_result.getD []
  if ((assocLookup "verified" v).getD (JsonVal.bool false)).truthy then
    "success"
  else if jsonGtZero ((assocLookup "failure_count" e).getD (JsonVal.num 0)) then
    "partial"
  else
    "success"

/-! ## Sample data for the concrete witnesses -/

/-- A write-tool handler used by the concrete witnesses. -/
def sampleHandler : Jdict → Except String Jdict :=
  fun _ => Except.ok [("restarted", JsonVal.bool true)]

/-- A risky write tool requiring operator permission, for the witnesses. -/
def restartTool : ToolSpec :=
  { name := "restart_service", description := "Restart a service",
    input_schema_required := ["service"], risk_level := RiskLevel.risky_write,
    permission_required := PermissionLevel.operator, handler := sampleHandler }

/-- A registry holding the sample tool, with an empty audit log. -/
def sampleRegistry : ToolRegistry :=
  { tools := [("restart_service", restartTool)], audit_log := [] }

/-! ## Claims about the tool registry -/

/-- Claim C2: for every call to ToolRegistry.call, whichever branch is
taken (unknown tool, permission denied, missing required field, handler
success, handler raised), exactly one AuditRecord is appended to the audit
log. -/
theorem call_appends_exactly_one_audit_record
    (reg : ToolRegistry) (tool_name : String) (args : Jdict)
    (caller_permission : PermissionLevel) (dry_run : Bool) (elapsed_ms : Nat) :
    ∃ rec, (reg.call tool_name args caller_permission dry_run elapsed_ms).registry.audit_log
      = reg.audit_log ++ [rec] := by
  unfold ToolRegistry.call
  cases h : reg.get_tool tool_name with
  | none => exact ⟨_, rfl⟩
  | some tool =>
    simp only
    split
    · exact ⟨_, rfl⟩
    · split
      · exact ⟨_, rfl⟩
      · exact ⟨_, rfl⟩

/-- Claim C3: a dry-run call on a registered tool whose risk level is not
read_only, passing the permission and required-field checks, never invokes
the handler, returns a successful synthetic result, and the returned
metadata carries dry_run: true. -/
theorem dry_run_never_invokes_handler
    (reg : ToolRegistry) (tool_name : String) (args : Jdict)
    (caller_permission : PermissionLevel) (elapsed_ms : Nat) (tool : ToolSpec)
    (hfound : reg.get_tool tool_name = some tool)
    (hrisk : tool.risk_level ≠ RiskLevel.read_only)
    (hperm : ToolRegistry.check_permission caller_permission tool.permission_required = true)
    (hfields : tool.missing_fields args = []) :
    (reg.call tool_name args caller_permission true elapsed_ms).handlerInvoked = false ∧
    (reg.call tool_name args caller_permission true elapsed_ms).result.success = true ∧
    assocLookup "dry_run"
        (reg.call tool_name args caller_permission true elapsed_ms).result.metadata
      = some (JsonVal.bool true) := by
  have hbeq : (tool.risk_level == RiskLevel.read_only) = false :=
    beq_eq_false_iff_ne.mpr hrisk
  unfold ToolRegistry.call
  rw [hfound]
  simp only [hperm, hfields, hbeq, Bool.not_true, Bool.if_false_left,
    Bool.and_self, List.isEmpty_nil, Bool.not_false, Bool.true_and, if_false,
    if_true, ite_true, ite_false]
  constructor
  · rfl
  · constructor
    · rfl
    · rfl

/-- Claim C4: permission ranks are totally ordered guest < operator <
admin, and a call whose caller rank is strictly below the rank the tool
requires returns a failure result carrying the permission-denied error,
without invoking the handler. -/
theorem permission_below_required_denies_call :
    (ToolRegistry.permission_level_value PermissionLevel.guest <
       ToolRegistry.permission_level_value PermissionLevel.operator ∧
     ToolRegistry.permission_level_value PermissionLevel.operator <
       ToolRegistry.permission_level_value PermissionLevel.admin) ∧
    ∀ (reg : ToolRegistry) (tool_name : String) (args : Jdict)
      (caller_permission : PermissionLevel) (dry_run : Bool) (elapsed_ms : Nat)
      (tool : ToolSpec),
      reg.get_tool tool_name = some tool →
      ToolRegistry.permission_level_value caller_permission <
        ToolRegistry.permission_level_value tool.permission_required →
      (reg.call tool_name args caller_permission dry_run elapsed_ms).result.success = false ∧
      (reg.call tool_name args caller_permission dry_run elapsed_ms).result.error
        = some (permissionDeniedMsg tool_name tool.permission_required caller_permission) ∧
      (reg.call tool_name args caller_permission dry_run elapsed_ms).handlerInvoked = false := by
  constructor
  · constructor
    · decide
    · decide
  · intro reg tool_name args caller_permission dry_run elapsed_ms tool hfound hlt
    have hperm : ToolRegistry.check_permission caller_permission tool.permission_required
        = false := by
      unfold ToolRegistry.check_permission
      exact decide_eq_false (Nat.not_le.mpr hlt)
    unfold ToolRegistry.call
    rw [hfound]
    simp only [hperm, Bool.not_false, if_true, ite_true]
    refine ⟨?_, ?_, ?_⟩ <;> trivial

/-- Claim C9: dry-run mode does not bypass access control or input
validation: with dry_run=true, a caller failing the permission check gets
the permission-denied failure (never the synthetic would-execute result),
and a call missing a required field gets the missing-fields failure; in
both cases the handler is not invoked. -/
theorem dry_run_does_not_bypass_checks
    (reg : ToolRegistry) (tool_name : String) (args : Jdict)
    (caller_permission : PermissionLevel) (elapsed_ms : Nat) (tool : ToolSpec)
    (hfound : reg.get_tool tool_name = some tool) :
    (ToolRegistry.check_permission caller_permission tool.permission_required = false →
      (reg.call tool_name args caller_permission true elapsed_ms).result.success = false ∧
      (reg.call tool_name args caller_permission true elapsed_ms).result.error
        = some (permissionDeniedMsg tool_name tool.permission_required caller_permission) ∧
      (reg.call tool_name args caller_permission true elapsed_ms).handlerInvoked = false) ∧
    (ToolRegistry.check_permission caller_permission tool.permission_required = true →
      tool.missing_fields args ≠ [] →
      (reg.call tool_name args caller_permission true elapsed_ms).result.success = false ∧
      (reg.call tool_name args caller_permission true elapsed_ms).result.error
        = some ("Missing required fields: " ++ pyListRepr (tool.missing_fields args)) ∧
      (reg.call tool_name args caller_permission true elapsed_ms).handlerInvoked = false) := by
  constructor
  · intro hperm
    unfold ToolRegistry.call
    rw [hfound]
    simp only [hperm, Bool.not_false, if_true, ite_true]
    refine ⟨?_, ?_, ?_⟩ <;> trivial
  · intro hperm hmissing
    have hne : (tool.missing_fields args).isEmpty = false := by
      cases h : tool.missing_fields args with
      | nil => exact absurd h hmissing
      | cons a t => rfl
    unfold ToolRegistry.call
    rw [hfound]
    simp only [hperm, hne, Bool.not_true, Bool.not_false, if_false, if_true,
      ite_true, ite_false]
    refine ⟨?_, ?_, ?_⟩ <;> trivial

/-- Witness for claim C3: a concrete dry-run call of the sample risky
tool by an operator neither invokes the handler nor loses the dry-run
marker. -/
theorem dry_run_never_invokes_handler_witness :
    (sampleRegistry.call "restart_service" [("service", JsonVal.str "auth-service")]
      PermissionLevel.operator true 3).handlerInvoked = false ∧
    (sampleRegistry.call "restart_service" [("service", JsonVal.str "auth-service")]
      PermissionLevel.operator true 3).result.success = true ∧
    assocLookup "dry_run"
        (sampleRegistry.call "restart_service" [("service", JsonVal.str "auth-service")]
          PermissionLevel.operator true 3).result.metadata
      = some (JsonVal.bool true) :=
  dry_run_never_invokes_handler sampleRegistry "restart_service"
    [("service", JsonVal.str "auth-service")] PermissionLevel.operator 3 restartTool
    rfl (by decide) rfl rfl

/-- Witness for claim C4: a guest calling the sample tool that requires
operator permission is denied without handler invocation. -/
theorem permission_below_required_denies_call_witness :
    ToolRegistry.permission_level_value PermissionLevel.guest <
      ToolRegistry.permission_level_value restartTool.permission_required ∧
    (sampleRegistry.call "restart_service" [("service", JsonVal.str "auth-service")]
      PermissionLevel.guest false 0).result.success = false ∧
    (sampleRegistry.call "restart_service" [("service", JsonVal.str "auth-service")]
      PermissionLevel.guest false 0).result.error
      = some (permissionDeniedMsg "restart_service" restartTool.permission_required
          PermissionLevel.guest) ∧
    (sampleRegistry.call "restart_service" [("service", JsonVal.str "auth-service")]
      PermissionLevel.guest false 0).handlerInvoked = false :=
  ⟨by decide,
   permission_below_required_denies_call.2 sampleRegistry "restart_service"
     [("service", JsonVal.str "auth-service")] PermissionLevel.guest false 0 restartTool
     rfl (by decide)⟩

/-- Witness for claim C9: with dry_run=true, a guest is still denied and an
operator calling without the required service field still fails
validation; the handler never runs. -/
theorem dry_run_does_not_bypass_checks_witness :
    ((sampleRegistry.call "restart_service" [("service", JsonVal.str "auth-service")]
        PermissionLevel.guest true 0).result.success = false ∧
     (sampleRegistry.call "restart_service" [("service", JsonVal.str "auth-service")]
        PermissionLevel.guest true 0).result.error
       = some (permissionDeniedMsg "restart_service" restartTool.permission_required
           PermissionLevel.guest) ∧
     (sampleRegistry.call "restart_service" [("service", JsonVal.str "auth-service")]
        PermissionLevel.guest true 0).handlerInvoked = false) ∧
    ((sampleRegistry.call "restart_service" [] PermissionLevel.operator true 0).result.success
        = false ∧
     (sampleRegistry.call "restart_service" [] PermissionLevel.operator true 0).result.error
       = some ("Missing required fields: " ++ pyListRepr (restartTool.missing_fields [])) ∧
     (sampleRegistry.call "restart_service" [] PermissionLevel.operator
        true 0).handlerInvoked = false) :=
  ⟨(dry_run_does_not_bypass_checks sampleRegistry "restart_service"
      [("service", JsonVal.str "auth-service")] PermissionLevel.guest 0 restartTool rfl).1
      rfl,
   (dry_run_does_not_bypass_checks sampleRegistry "restart_service" []
      PermissionLevel.operator 0 restartTool rfl).2 rfl (by decide)⟩

/-! ## Claims about the execution graph -/

theorem assocLookup_assocSet {α : Type} (k : String) (v : α) :
    ∀ l : List (String × α), assocLookup k (assocSet k v l) = some v := by
  intro l
  induction l with
  | nil => simp [assocSet, assocLookup]
  | cons p t ih =>
    obtain ⟨k', v'⟩ := p
    simp only [assocSet]
    by_cases hk : k' = k
    · rw [if_pos hk]
      simp [assocLookup]
    · rw [if_neg hk]
      simp only [assocLookup]
      rw [if_neg hk]
      exact ih

/-- Claim C5: Graph.execute_node never raises to its caller: an unknown
node name returns the not-found failure triple with graph and context
untouched, and a handler that raises is caught, recorded on the node as
failed with the error set, and returned as (false, none, error). -/
theorem execute_node_catches_errors {V S : Type} (g : Graph V S)
    (node_name : String) (context : ExecutionContext V S) :
    (assocLookup node_name g.nodes = none →
      g.execute_node node_name context =
        { graph := g, ctx := context, ok := false, result := none,
          error := some ("Node \x27" ++ node_name ++ "\x27 not found") }) ∧
    (∀ node h e, assocLookup node_name g.nodes = some node →
      node.handler = some h →
      h { context with current_node := some node_name } = Except.error e →
      (g.execute_node node_name context).ok = false ∧
      (g.execute_node node_name context).result = none ∧
      (g.execute_node node_name context).error = some e ∧
      ∃ node', assocLookup node_name (g.execute_node node_name context).graph.nodes
          = some node' ∧ node'.status = NodeStatus.failed ∧ node'.error = some e) := by
  constructor
  · intro hnone
    unfold Graph.execute_node
    rw [hnone]
  · intro node h e hfound hh hraise
    unfold Graph.execute_node
    simp only [hfound, hh, hraise]
    exact ⟨trivial, trivial, trivial, _, assocLookup_assocSet node_name _ g.nodes, rfl, rfl⟩

/-- A handler that succeeds with result 1 and leaves the context as it
received it, for the witnesses. -/
def okHandlerA : NodeHandler Nat Unit := fun ctx => Except.ok (1, ctx)

/-- A second succeeding handler, result 2, for the witnesses. -/
def okHandlerB : NodeHandler Nat Unit := fun ctx => Except.ok (2, ctx)

/-- A handler that raises, for the witnesses. -/
def boomHandler : NodeHandler Nat Unit := fun _ => Except.error "kaboom"

/-- Sample pending node a. -/
def nodeA : Node Nat Unit :=
  { name := "a", handler := some okHandlerA, description := "",
    status := NodeStatus.pending, error := none, result := none }

/-- Sample pending node b. -/
def nodeB : Node Nat Unit :=
  { name := "b", handler := some okHandlerB, description := "",
    status := NodeStatus.pending, error := none, result := none }

/-- Sample pending node whose handler raises. -/
def boomNode : Node Nat Unit :=
  { name := "boom", handler := some boomHandler, description := "",
    status := NodeStatus.pending, error := none, result := none }

/-- A three-node sample graph for the witnesses. -/
def sampleGraph : Graph Nat Unit :=
  { nodes := [("a", nodeA), ("boom", boomNode), ("b", nodeB)],
    transitions := [], edges := [] }

/-- A fresh sample execution context. -/
def sampleContext : ExecutionContext Nat Unit :=
  { task_id := "t1", state := (), current_node := none,
    node_results := [], execution_path := [] }

/-- Witness for claim C5: executing an unregistered name and a raising
handler on the concrete sample graph. -/
theorem execute_node_catches_errors_witness :
    sampleGraph.execute_node "missing" sampleContext =
      { graph := sampleGraph, ctx := sampleContext, ok := false, result := none,
        error := some "Node \x27missing\x27 not found" } ∧
    ((sampleGraph.execute_node "boom" sampleContext).ok = false ∧
     (sampleGraph.execute_node "boom" sampleContext).result = none ∧
     (sampleGraph.execute_node "boom" sampleContext).error = some "kaboom" ∧
     ∃ node', assocLookup "boom" (sampleGraph.execute_node "boom" sampleContext).graph.nodes
         = some node' ∧ node'.status = NodeStatus.failed ∧ node'.error = some "kaboom") :=
  ⟨(execute_node_catches_errors sampleGraph "missing" sampleContext).1 rfl,
   (execute_node_catches_errors sampleGraph "boom" sampleContext).2
     boomNode boomHandler "kaboom" rfl rfl rfl⟩

/-- Handler updates performed by execute_node keep the handler field, so
handler-level properties survive the node-status bookkeeping. -/
theorem handlersPreservePath_assocSet {V S : Type} {g : Graph V S} {n : String}
    {node node' : Node V S} (hpres : HandlersPreservePath g)
    (hmem : (n, node) ∈ g.nodes) (hhand : node'.handler = node.handler) :
    HandlersPreservePath { g with nodes := assocSet n node' g.nodes } := by
  intro p hp h hph ctx r ctx' hok
  rcases mem_assocSet hp with rfl | hp'
  · exact hpres (n, node) hmem h (by rw [← hhand]; exact hph) ctx r ctx' hok
  · exact hpres p hp' h hph ctx r ctx' hok

/-- execute_node does not change any handler, so path preservation of the
handlers carries over to the updated graph. -/
theorem handlersPreservePath_execute_node {V S : Type} (g : Graph V S)
    (n : String) (ctx : ExecutionContext V S) (hpres : HandlersPreservePath g) :
    HandlersPreservePath (g.execute_node n ctx).graph := by
  unfold Graph.execute_node
  cases hl : assocLookup n g.nodes with
  | none => exact hpres
  | some node =>
    have hmem := assocLookup_mem hl
    cases hh : node.handler with
    | none =>
      simp only [hh]
      exact handlersPreservePath_assocSet hpres hmem hh.symm
    | some h0 =>
      simp only [hh]
      cases hr : h0 { ctx with current_node := some n } with
      | ok pr =>
        obtain ⟨r, ctx2⟩ := pr
        simp only [hr]
        exact handlersPreservePath_assocSet hpres hmem hh.symm
      | error e =>
        simp only [hr]
        exact handlersPreservePath_assocSet hpres hmem hh.symm

/-- One execute_node call appends the node name to the execution path
exactly when it succeeds, provided the graph handlers leave the path
alone. -/
theorem execute_node_path {V S : Type} (g : Graph V S) (n : String)
    (ctx : ExecutionContext V S) (hpres : HandlersPreservePath g) :
    (g.execute_node n ctx).ctx.execution_path =
      ctx.execution_path ++ (if (g.execute_node n ctx).ok then [n] else []) := by
  unfold Graph.execute_node
  cases hl : assocLookup n g.nodes with
  | none => simp
  | some node =>
    have hmem := assocLookup_mem hl
    cases hh : node.handler with
    | none => simp [hh]
    | some h0 =>
      cases hr : h0 { ctx with current_node := some n } with
      | ok pr =>
        obtain ⟨r, ctx2⟩ := pr
        have hpath : ctx2.execution_path = ctx.execution_path :=
          hpres (n, node) hmem h0 hh { ctx with current_node := some n } r ctx2 hr
        simp [hh, hr, ExecutionContext.set_node_result, ExecutionContext.add_to_path,
          hpath]
      | error e => simp [hh, hr]

/-- Successive execute_node calls, path bookkeeping of one step folded into
a trace of (name, success) pairs. -/
theorem executeSeq_path {V S : Type} :
    ∀ (names : List String) (g : Graph V S) (ctx : ExecutionContext V S),
      HandlersPreservePath g →
      (g.executeSeq ctx names).ctx.execution_path =
        ctx.execution_path ++ successNames (g.executeSeq ctx names).trace := by
  intro names
  induction names with
  | nil =>
    intro g ctx _
    simp [Graph.executeSeq, successNames]
  | cons n rest ih =>
    intro g ctx hpres
    have hstep := execute_node_path g n ctx hpres
    have hpres' := handlersPreservePath_execute_node g n ctx hpres
    have htail := ih (g.execute_node n ctx).graph (g.execute_node n ctx).ctx hpres'
    simp only [Graph.executeSeq]
    rw [htail, hstep]
    cases hok : (g.execute_node n ctx).ok with
    | false => simp [successNames, hok, List.filter]
    | true => simp [successNames, hok, List.filter]

/-- Claim C10: a failing execute_node call (unknown name, missing handler
or raising handler) leaves the node_results map and the execution_path of
the context unchanged, and across a run whose handlers do not touch the
path themselves, the execution path extends by exactly the names of the
successful calls in order. -/
theorem failed_execute_node_leaves_context_unchanged {V S : Type}
    (g : Graph V S) (n : String) (ctx : ExecutionContext V S)
    (names : List String) :
    ((g.execute_node n ctx).ok = false →
      (g.execute_node n ctx).ctx.node_results = ctx.node_results ∧
      (g.execute_node n ctx).ctx.execution_path = ctx.execution_path) ∧
    (HandlersPreservePath g →
      (g.executeSeq ctx names).ctx.execution_path =
        ctx.execution_path ++ successNames (g.executeSeq ctx names).trace) := by
  constructor
  · intro hfail
    unfold Graph.execute_node at hfail ⊢
    cases hl : assocLookup n g.nodes with
    | none => simp
    | some node =>
      cases hh : node.handler with
      | none => simp [hh]
      | some h0 =>
        cases hr : h0 { ctx with current_node := some n } with
        | ok pr =>
          obtain ⟨r, ctx2⟩ := pr
          simp only [hl, hh, hr] at hfail
          exact absurd hfail (by simp)
        | error e => simp [hh, hr]
  · intro hpres
    exact executeSeq_path names g ctx hpres

/-- Witness for claim C10: on the sample graph, the raising node leaves
the context untouched etc., and the sequence a, missing, boom, b extends
the path by exactly the successful names a and b. -/
theorem failed_execute_node_leaves_context_unchanged_witness :
    ((sampleGraph.execute_node "boom" sampleContext).ctx.node_results
        = sampleContext.node_results ∧
     (sampleGraph.execute_node "boom" sampleContext).ctx.execution_path
        = sampleContext.execution_path) ∧
    (sampleGraph.executeSeq sampleContext ["a", "missing", "boom", "b"]).ctx.execution_path
      = sampleContext.execution_path ++
          successNames
            (sampleGraph.executeSeq sampleContext ["a", "missing", "boom", "b"]).trace := by
  have hpres : HandlersPreservePath sampleGraph := by
    intro p hp h hph ctx r ctx' hok
    simp only [sampleGraph, List.mem_cons, List.not_mem_nil, or_false] at hp
    rcases hp with rfl | rfl | rfl
    · simp only [nodeA] at hph
      injection hph with hfun
      subst hfun
      simp only [okHandlerA] at hok
      injection hok with hpair
      injection hpair with hr hctx
      rw [← hctx]
    · simp only [boomNode] at hph
      injection hph with hfun
      subst hfun
      simp only [boomHandler] at hok
      cases hok
    · simp only [nodeB] at hph
      injection hph with hfun
      subst hfun
      simp only [okHandlerB] at hok
      injection hok with hpair
      injection hpair with hr hctx
      rw [← hctx]
  constructor
  · exact (failed_execute_node_leaves_context_unchanged sampleGraph "boom"
      sampleContext []).1 rfl
  · exact (failed_execute_node_leaves_context_unchanged sampleGraph "a"
      sampleContext ["a", "missing", "boom", "b"]).2 hpres

/-! ## Claims about the orchestrator run loop -/

/-- The loop body aborts immediately when the budget is already exceeded. -/
theorem runLoop_budget_exceeded {V : Type} (g : Graph V Task) (fuel : Nat)
    (n : String) (ctx : ExecutionContext V Task) (durations : List Nat)
    (hex : ctx.state.budget.is_exceeded = true) :
    Orchestrator.runLoop g fuel (some n) ctx durations =
      { result := Except.error (budgetExceededMsg ctx.state.budget), attempted := [] } := by
  unfold Orchestrator.runLoop
  simp [hex]

/-- Claim C1: the orchestrator run loop checks the task budget before
every stage: whenever a stage is about to start with the budget exceeded,
the loop aborts with the budget-exceeded error and hands no node to
execute_node; a run entered with an exceeded budget returns that error
and no Report. Since every later iteration is the same loop applied to
the later state, the per-iteration statement is the temporal one: once
the budget is exceeded, no later stage ever starts. -/
theorem budget_exceeded_aborts_run {V : Type} (g : Graph V Task) :
    (∀ (fuel : Nat) (n : String) (ctx : ExecutionContext V Task)
       (durations : List Nat),
      ctx.state.budget.is_exceeded = true →
      Orchestrator.runLoop g fuel (some n) ctx durations =
        { result := Except.error (budgetExceededMsg ctx.state.budget),
          attempted := [] }) ∧
    (∀ (task : Task) (durations : List Nat) (fuel : Nat),
      task.budget.is_exceeded = true →
      Orchestrator.run g task durations fuel =
        (Except.error (budgetExceededMsg task.budget), [])) := by
  constructor
  · intro fuel n ctx durations hex
    exact runLoop_budget_exceeded g fuel n ctx durations hex
  · intro task durations fuel hex
    unfold Orchestrator.run
    simp only [runLoop_budget_exceeded g fuel "detect"
      { task_id := task.task_id, state := task, current_node := none,
        node_results := [], execution_path := [] } durations hex]

/-- A stage handler for the run-loop witness. -/
def detectHandler : NodeHandler Nat Task := fun ctx => Except.ok (0, ctx)

/-- A one-node graph holding a detect stage, for the run-loop witness. -/
def detectGraph : Graph Nat Task :=
  { nodes := [("detect",
      { name := "detect", handler := some detectHandler, description := "",
        status := NodeStatus.pending, error := none, result := none })],
    transitions := [], edges := [] }

/-- A task whose token budget is already used up. -/
def exhaustedTask : Task :=
  { task_id := "task-1",
    budget := { max_tokens := 1000, max_time_seconds := 60, max_tool_calls := 5,
                tokens_used := 1000, time_used := 0, tool_calls_used := 0 },
    status := "new" }

/-- Witness for claim C1: running the one-node graph on the exhausted task
aborts with the budget error, executing nothing, before the detect stage. -/
theorem budget_exceeded_aborts_run_witness :
    Orchestrator.run detectGraph exhaustedTask [1, 1] 8 =
      (Except.error (budgetExceededMsg exhaustedTask.budget), []) :=
  (budget_exceeded_aborts_run detectGraph).2 exhaustedTask [1, 1] 8 (by decide)

/-! ## Claims about the approval policy -/

/-- Claim C6: approve_plan always approves. When the plan does not require
approval the reason is the auto-approved message; when risky-write actions
are present and require_approval_for_risky is set, the reason carries the
risky-action count. -/
theorem approve_plan_always_approves (policy : ApprovalPolicy) (plan : Plan) :
    (policy.approve_plan plan).1 = true ∧
    (policy.requires_approval plan = false →
      (policy.approve_plan plan).2 = some "Auto-approved by policy") ∧
    (plan.actions.any (fun a => a.risk_level == RiskLevel.risky_write) = true →
      policy.require_approval_for_risky = true →
      (policy.approve_plan plan).2 = some ("Auto-approved (M1 mode) - " ++
        toString (plan.actions.filter
          (fun a => a.risk_level == RiskLevel.risky_write)).length ++
        " risky actions require review in M2")) := by
  refine ⟨?_, ?_, ?_⟩
  · unfold ApprovalPolicy.approve_plan
    split
    · rfl
    · dsimp only
      split
      · rfl
      · rfl
  · intro hreq
    unfold ApprovalPolicy.approve_plan
    simp [hreq]
  · intro hany hrisky
    obtain ⟨a, hmem, ha⟩ := List.any_eq_true.mp hany
    have haeq : a.risk_level = RiskLevel.risky_write := by
      exact eq_of_beq ha
    have hreq : policy.requires_approval plan = true := by
      unfold ApprovalPolicy.requires_approval
      split
      · rfl
      · apply List.any_eq_true.mpr
        refine ⟨a, hmem, ?_⟩
        rw [haeq]
        exact hrisky
    have hfilter : (plan.actions.filter
        (fun a => a.risk_level == RiskLevel.risky_write)).isEmpty = false := by
      cases hf : plan.actions.filter (fun a => a.risk_level == RiskLevel.risky_write) with
      | nil =>
        exfalso
        have : a ∈ plan.actions.filter (fun a => a.risk_level == RiskLevel.risky_write) :=
          List.mem_filter.mpr ⟨hmem, ha⟩
        rw [hf] at this
        exact List.not_mem_nil a this
      | cons x t => rfl
    unfold ApprovalPolicy.approve_plan
    simp [hreq, hfilter, hrisky]

/-- The reference configuration of the approval policy (policies.py field
defaults: auto-approve read-only, do not auto-approve safe writes, require
approval for risky writes). -/
def defaultApprovalPolicy : ApprovalPolicy :=
  { auto_approve_read_only := true, auto_approve_safe_write := false,
    require_approval_for_risky := true }

/-- A plan with a single risky-write action and no explicit approval flag. -/
def riskyPlan : Plan :=
  { hypotheses := ["disk pressure"],
    actions := [{ tool_name := "restart_service", args := [],
                  risk_level := RiskLevel.risky_write, requires_approval := true }],
    approval_required := false }

/-- A plan with only a read-only action and no explicit approval flag. -/
def readOnlyPlan : Plan :=
  { hypotheses := [],
    actions := [{ tool_name := "query_metrics", args := [],
                  risk_level := RiskLevel.read_only, requires_approval := false }],
    approval_required := false }

/-- Witness for claim C6: the all-read-only plan is auto-approved with the
policy message; the one-risky-action plan is approved with the counted
review message. -/
theorem approve_plan_always_approves_witness :
    (defaultApprovalPolicy.approve_plan readOnlyPlan).2
      = some "Auto-approved by policy" ∧
    (defaultApprovalPolicy.approve_plan riskyPlan).1 = true ∧
    (defaultApprovalPolicy.approve_plan riskyPlan).2
      = some "Auto-approved (M1 mode) - 1 risky actions require review in M2" := by
  refine ⟨?_, ?_, ?_⟩
  · exact (approve_plan_always_approves defaultApprovalPolicy readOnlyPlan).2.1
      (by decide)
  · exact (approve_plan_always_approves defaultApprovalPolicy riskyPlan).1
  · have h := (approve_plan_always_approves defaultApprovalPolicy riskyPlan).2.2
      (by decide) (by decide)
    rw [h]
    decide

/-! ## Claim about the verifier checks -/

/-- Claim C7 (divergence between code and claim): with live verification,
the embedded _check_metric fails for cpu_percent no matter what 5-minute
average the metrics backend would report (50 as well as 95), and the
embedded _check_error_logs fails no matter the entry count (2 as well as
6), because both registry calls inside the try blocks omit the required
caller_permission argument and raise TypeError before any data is read.
The rule table itself, applied as _evaluate_threshold does, would pass 50
and fail 95 against threshold 80 with operator lt, which is what the
claim describes. -/
theorem verifier_checks_always_fail :
    (Verifier.check_metric "auth-service" "cpu_percent" 50).passed = false ∧
    (Verifier.check_metric "auth-service" "cpu_percent" 95).passed = false ∧
    (Verifier.check_error_logs "auth-service" 2).passed = false ∧
    (Verifier.check_error_logs "auth-service" 6).passed = false ∧
    Verifier.evaluate_threshold 50 80 "lt" = true ∧
    Verifier.evaluate_threshold 95 80 "lt" = false := by
  refine ⟨rfl, rfl, rfl, rfl, ?_, ?_⟩
  · decide
  · decide

/-! ## Claim about the report status -/

/-- Claim C8: the report stage assigns success when the verification
result is verified, else partial when the executor result records a
positive failure count, else success by default, so a run whose plan was
never executed nor verified is still reported success. -/
theorem report_status_assignment (verification_result executor_result : Option Jdict) :
    (((assocLookup "verified" (verification_result.getD [])).getD
        (JsonVal.bool false)).truthy = true →
      reportStatus verification_result executor_result = "success") ∧
    (((assocLookup "verified" (verification_result.getD [])).getD
        (JsonVal.bool false)).truthy = false →
      jsonGtZero ((assocLookup "failure_count" (executor_result.getD [])).getD
        (JsonVal.num 0)) = true →
      reportStatus verification_result executor_result = "partial") ∧
    reportStatus none none = "success" := by
  refine ⟨?_, ?_, rfl⟩
  · intro hv
    unfold reportStatus
    simp [hv]
  · intro hv hf
    unfold reportStatus
    simp [hv, hf]

/-- Witness for claim C8 at concrete node results. -/
theorem report_status_assignment_witness :
    reportStatus (some [("verified", JsonVal.bool true)])
      (some [("failure_count", JsonVal.num 2)]) = "success" ∧
    reportStatus (some [("verified", JsonVal.bool false)])
      (some [("failure_count", JsonVal.num 2)]) = "partial" ∧
    reportStatus none none = "success" :=
  ⟨(report_status_assignment (some [("verified", JsonVal.bool true)])
      (some [("failure_count", JsonVal.num 2)])).1 (by decide),
   (report_status_assignment (some [("verified", JsonVal.bool false)])
      (some [("failure_count", JsonVal.num 2)])).2.1 (by decide) (by decide),
   (report_status_assignment none none).2.2⟩

end Sentinel
